import Mathlib

/-!
Verification of `mangafetcher` (`src/main.py`): a shallow embedding of the
existence prober `url_ok`, the page-sequence generator `page_fetcher`, the
download wrapper `download_file`, and the orchestrator `fetch_book`, together
with theorems settling the specification's claims about them.

Modelling conventions:
* The network is a pure environment `Net` mapping a URL to the result of a
  HEAD request (`head`) and of a GET request (`get`); a network-level fault
  (DNS failure, connection refused, timeout) is a distinguished outcome that
  the Python `requests` library surfaces by raising an exception.
* Python exceptions are modelled with `Except` / an explicit error field.
* `requests.Session` objects only affect connection reuse, never the response,
  so a session is modelled by an identifier recording which session object a
  call used: the module-level default session created once in `url_ok`'s
  signature (`sharedDefault`), the per-chapter session created by
  `fetch_book` (`perChapter`), or a session freshly created inside
  `page_fetcher` when its caller passes `None` (`freshSession`).
* Generators are embedded with explicit fuel; `none` means the fuel ran out
  before the loop finished, and every theorem supplies sufficient fuel.
-/

namespace MangaFetcher

/-- URLs are strings (type alias `URL = str` in `src/main.py`). -/
abbrev URL := String

/-- A network-level fault raised by `requests` (DNS failure, connection
refused, timeout). -/
inductive NetFault where
  | dnsFailure
  | connectionRefused
  | timeout
  deriving DecidableEq, Repr

/-- Result of `session.head(url)`: either a response with a status code, or a
raised network-level fault. -/
inductive HeadResult where
  | status (code : Nat)
  | fault (f : NetFault)
  deriving DecidableEq, Repr

/-- Result of `session.get(url, stream=True)`: either a response with a status
code and a byte body, or a raised network-level fault. -/
inductive GetResult where
  | status (code : Nat) (body : String)
  | fault (f : NetFault)
  deriving DecidableEq, Repr

/-- A decoded page image (the result of `Image.open(...).convert('RGB')`),
kept abstract as the string produced by `Net.decode` on the downloaded
bytes. -/
abbrev Image := String

/-- The pure network/IO environment of one run.  `head` and `get` are fixed
functions of the URL (responses do not depend on which session issues the
request, matching the stubbed-responses reading of the spec), and `decode`
abstracts PIL's image decoding of the downloaded bytes.  `tmpdir` is the name
of the temporary directory created by `TemporaryDirectory()`. -/
structure Net where
  head : URL → HeadResult
  get : URL → GetResult
  decode : String → Image
  tmpdir : String

/-- Identifier of the `requests.Session` object a call used. -/
inductive SessionId where
  | sharedDefault
  | perChapter
  | freshSession
  deriving DecidableEq, Repr

/-- One piece of a chapter-bound URL template: literal text or the open
`{page}` slot. -/
inductive TemplateItem where
  | lit (s : String)
  | pageSlot
  deriving DecidableEq, Repr

/-- A chapter-bound URL template (`target` in `fetch_book`): a format string
whose only open slot is `{page}`. -/
abbrev Template := List TemplateItem

/-- `t.format(page=n)`: substitute `n` into every `{page}` slot. -/
def formatPage (t : Template) (page : Nat) : String :=
  match t with
  | [] => ""
  | .lit s :: rest => s ++ formatPage rest page
  | .pageSlot :: rest => toString page ++ formatPage rest page

/-- One piece of the configured `get_format` string: literal text or one of
the named slots `{url}`, `{chapter}`, `{page}`. -/
inductive FormatItem where
  | lit (s : String)
  | urlSlot
  | chapterSlot
  | pageSlot
  deriving DecidableEq, Repr

/-- The configured `format` string with slots `{url}`, `{chapter}`, `{page}`. -/
abbrev GetFormat := List FormatItem

/-- `get_format.format(url=url, chapter=chapter, page='\x7bpage\x7d')`
(src/main.py line 122): bind `url` and `chapter`, keep `page` open. -/
def bindChapter (fmt : GetFormat) (url : String) (chapter : Int) : Template :=
  fmt.map fun it =>
    match it with
    | .lit s => TemplateItem.lit s
    | .urlSlot => TemplateItem.lit url
    | .chapterSlot => TemplateItem.lit (toString chapter)
    | .pageSlot => TemplateItem.pageSlot

/-- The session a bare `url_ok(url)` call uses: the default argument
`session=requests.Session()` is evaluated once at definition time, so it is
one session shared among all such calls (src/main.py line 40). -/
def url_ok_default_session : SessionId := .sharedDefault

/-- `url_ok(url, session)` (src/main.py lines 40-53): `r = session.head(url);
return r.status_code == 200`.  A fault raised by `session.head` propagates
(`Except.error`); no exception handling is present in the source. -/
def url_ok (env : Net) (url : URL) (session : SessionId) : Except NetFault Bool :=
  match env.head url with
  | .status c => .ok (decide (c = 200))
  | .fault f => .error f

/-- Everything observable about one exhausted (or aborted) run of the
`page_fetcher` generator: the URLs it yielded, the existence probes it issued
(URL and session, in order), and the fault it raised, if any (`none` means the
generator terminated normally at the first failing probe). -/
structure GenResult where
  yielded : List URL
  probes : List (URL × SessionId)
  fault : Option NetFault
  deriving DecidableEq, Repr

/-- The loop of `page_fetcher` (src/main.py lines 70-77):
`while url_ok(base_url.format(page=index), session): yield ...; index += 1`,
run to exhaustion with explicit fuel (`none` = fuel ran out mid-loop). -/
def page_fetcherAux (env : Net) (base_url : Template) (session : SessionId) :
    Nat → Nat → Option GenResult
  | 0, _ => none
  | fuel + 1, index =>
    match url_ok env (formatPage base_url index) session with
    | .error f => some ⟨[], [(formatPage base_url index, session)], some f⟩
    | .ok false => some ⟨[], [(formatPage base_url index, session)], none⟩
    | .ok true =>
      match page_fetcherAux env base_url session fuel (index + 1) with
      | none => none
      | some r =>
        some ⟨formatPage base_url index :: r.yielded,
              (formatPage base_url index, session) :: r.probes, r.fault⟩

/-- Default of `page_fetcher`'s `startfrom` parameter (src/main.py line 57:
`startfrom: int = 0`). -/
def page_fetcher_default_startfrom : Nat := 0

/-- `page_fetcher(base_url, startfrom, session)` (src/main.py lines 56-77):
if `session is None` a fresh session is created, then the probing loop runs
from `startfrom`. -/
def page_fetcher (env : Net) (base_url : Template) (startfrom : Nat)
    (session : Option SessionId) (fuel : Nat) : Option GenResult :=
  page_fetcherAux env base_url (session.getD .freshSession) fuel startfrom

/-- A call `page_fetcher(base_url)` that lets both `startfrom` and `session`
take their default values. -/
def page_fetcherDefaults (env : Net) (base_url : Template) (fuel : Nat) :
    Option GenResult :=
  page_fetcher env base_url page_fetcher_default_startfrom none fuel

/-- A Python exception that can escape `download_file` / `fetch_book`:
a propagated `requests` network fault, an `HTTPError` from
`raise_for_status()`, or the `IndexError` of `images[0]` on an empty list. -/
inductive PyErr where
  | netFault (f : NetFault)
  | httpError (code : Nat)
  | indexError
  deriving DecidableEq, Repr

/-- `url.split('/')[-1]` (src/main.py line 91). -/
def fileName (url : URL) : String := (url.splitOn "/").getLastD ""

/-- `download_file(url, output_dir, session)` (src/main.py lines 80-100):
GET the url; `raise_for_status()` raises `HTTPError` on a 4xx/5xx status; the
body is streamed to `output_dir / url.split('/')[-1]`.  The result carries the
local file name together with the bytes written to it (the embedding of the
file-system effect); a raised exception is `Except.error`. -/
def download_file (env : Net) (url : URL) (output_dir : String)
    (session : SessionId) : Except PyErr (String × String) :=
  match env.get url with
  | .fault f => .error (.netFault f)
  | .status c body =>
    if 400 ≤ c ∧ c < 600 then .error (.httpError c)
    else .ok (output_dir ++ "/" ++ fileName url, body)

/-- Everything observable about the download loop of `fetch_book`
(src/main.py lines 131-137): the decoded images appended to `images`, the
probes the driven generator issued, the downloads issued, the info-level log
messages, and the exception that aborted the loop, if any. -/
structure LoopResult where
  images : List Image
  probes : List (URL × SessionId)
  downloads : List (URL × SessionId)
  logs : List String
  err : Option PyErr
  deriving DecidableEq, Repr

/-- The `for page in page_fetcher(target, startfrom=..., session=...)` loop of
`fetch_book` (src/main.py lines 132-137), with the lazy generator inlined:
probe the current index; if absent, stop normally; if present, log, download
(`download_file`), decode (`Image.open(...).convert('RGB')` applied to the
written bytes) and append, then continue with `index + 1`.  An exception from
a probe or a download aborts the loop (`err`); `none` = fuel ran out. -/
def fetchLoop (env : Net) (target : Template) (tmpdir : String)
    (session : SessionId) : Nat → Nat → Option LoopResult
  | 0, _ => none
  | fuel + 1, index =>
    let u := formatPage target index
    match url_ok env u session with
    | .error f => some ⟨[], [(u, session)], [], [], some (.netFault f)⟩
    | .ok false => some ⟨[], [(u, session)], [], [], none⟩
    | .ok true =>
      match download_file env u tmpdir session with
      | .error e =>
        some ⟨[], [(u, session)], [(u, session)], ["downloading " ++ u], some e⟩
      | .ok (_fname, body) =>
        match fetchLoop env target tmpdir session fuel (index + 1) with
        | none => none
        | some r =>
          some ⟨env.decode body :: r.images, (u, session) :: r.probes,
                (u, session) :: r.downloads, ("downloading " ++ u) :: r.logs,
                r.err⟩

/-- The info-level message logged when the page-1 probe fails (src/main.py
line 126; the source string is a plain literal, not an f-string, so the
braces appear verbatim). -/
def chapterNotFoundMsg : String :=
  "couldn\x27t fetch the first page of \x7bchapter = \x7d"

/-- The info-level message logged before assembling the PDF (src/main.py
line 139). -/
def savingMsg (chapter : Int) (destfile : String) : String :=
  "saving images of chapter " ++ toString chapter ++ " to PDF (" ++ destfile ++ ")"

deriving instance DecidableEq for Except

/-- Everything observable about one `fetch_book` run: its outcome (`ok b` for
`return b`, `error e` for a raised exception), the existence probes and
downloads issued (URL and session), the info-level log messages, and the
assembled artifact (`some (destfile, images)` once
`images[0].save(destfile, save_all=True, append_images=images[1:])` ran). -/
structure FetchOutcome where
  result : Except PyErr Bool
  probes : List (URL × SessionId)
  downloads : List (URL × SessionId)
  logs : List String
  saved : Option (String × List Image)
  deriving DecidableEq, Repr

/-- `fetch_book(url, get_format, destfile, chapter)` (src/main.py lines
103-142): bind `url`/`chapter` in the format; create the per-chapter session;
probe page 1 with `url_ok(target.format(page=1))` — note: called WITHOUT the
session argument, so it uses the shared default session; on failure log and
return `False`; otherwise drive the generator (per-chapter session,
`startfrom=1`) downloading and decoding each page into `images`; finally log
and save `images[0]` with the rest appended, returning `True`.  `none` = the
loop's fuel ran out. -/
def fetch_book (env : Net) (url : URL) (get_format : GetFormat)
    (destfile : String) (chapter : Int) (fuel : Nat) : Option FetchOutcome :=
  let target := bindChapter get_format url chapter
  let first := formatPage target 1
  match url_ok env first url_ok_default_session with
  | .error f =>
    some ⟨.error (.netFault f), [(first, url_ok_default_session)], [], [], none⟩
  | .ok false =>
    some ⟨.ok false, [(first, url_ok_default_session)], [],
          [chapterNotFoundMsg], none⟩
  | .ok true =>
    match fetchLoop env target env.tmpdir .perChapter fuel 1 with
    | none => none
    | some r =>
      let probes := (first, url_ok_default_session) :: r.probes
      match r.err with
      | some e => some ⟨.error e, probes, r.downloads, r.logs, none⟩
      | none =>
        match r.images with
        | [] =>
          some ⟨.error .indexError, probes, r.downloads,
                r.logs ++ [savingMsg chapter destfile], none⟩
        | img :: rest =>
          some ⟨.ok true, probes, r.downloads,
                r.logs ++ [savingMsg chapter destfile],
                some (destfile, img :: rest)⟩

/-- The (result, artifact) summary of a `fetch_book` outcome. -/
def runSummary (o : FetchOutcome) :
    Except PyErr Bool × Option (String × List Image) :=
  (o.result, o.saved)

/-! Concrete fixtures used by witnesses and counterexamples. -/

/-- A chapter-bound template `http://x/5/\x7bpage\x7d.jpg`. -/
def tmplX : Template := [.lit "http://x/5/", .pageSlot, .lit ".jpg"]

/-- A configured format `\x7burl\x7d/\x7bchapter\x7d/\x7bpage\x7d.jpg`. -/
def getFormatX : GetFormat :=
  [.urlSlot, .lit "/", .chapterSlot, .lit "/", .pageSlot, .lit ".jpg"]

/-- An environment where exactly pages 1..3 of `http://x/5/` exist and
download correctly. -/
def envPages123 : Net where
  head u :=
    if u = "http://x/5/1.jpg" ∨ u = "http://x/5/2.jpg" ∨ u = "http://x/5/3.jpg"
    then .status 200 else .status 404
  get u :=
    if u = "http://x/5/1.jpg" ∨ u = "http://x/5/2.jpg" ∨ u = "http://x/5/3.jpg"
    then .status 200 ("bytes:" ++ u) else .status 404 "missing"
  decode b := "img:" ++ b
  tmpdir := "tmp"

/-- The complete outcome of `fetch_book` on `envPages123` (pages 1..3 of
chapter 5 of `http://x`, output `a.pdf`). -/
def outcomePages123 : FetchOutcome where
  result := .ok true
  probes := [("http://x/5/1.jpg", .sharedDefault),
             ("http://x/5/1.jpg", .perChapter),
             ("http://x/5/2.jpg", .perChapter),
             ("http://x/5/3.jpg", .perChapter),
             ("http://x/5/4.jpg", .perChapter)]
  downloads := [("http://x/5/1.jpg", .perChapter),
                ("http://x/5/2.jpg", .perChapter),
                ("http://x/5/3.jpg", .perChapter)]
  logs := ["downloading http://x/5/1.jpg", "downloading http://x/5/2.jpg",
           "downloading http://x/5/3.jpg", savingMsg 5 "a.pdf"]
  saved := some ("a.pdf",
    ["img:bytes:http://x/5/1.jpg", "img:bytes:http://x/5/2.jpg",
     "img:bytes:http://x/5/3.jpg"])

/-- A template `http://z/\x7bpage\x7d`. -/
def tmplZ : Template := [.lit "http://z/", .pageSlot]

/-- An environment where page 1 of `http://z/` exists and the existence check
for page 2 raises a connection-timeout fault. -/
def envTimeout2 : Net where
  head u :=
    if u = "http://z/1" then .status 200
    else if u = "http://z/2" then .fault .timeout
    else .status 404
  get _ := .fault .timeout
  decode b := b
  tmpdir := "tmp"

/-- A template `http://y/\x7bpage\x7d.jpg`. -/
def tmplY : Template := [.lit "http://y/", .pageSlot, .lit ".jpg"]

/-- An environment where only page 0 of `http://y/` exists. -/
def envPage0 : Net where
  head u := if u = "http://y/0.jpg" then .status 200 else .status 404
  get _ := .status 404 "missing"
  decode b := b
  tmpdir := "tmp"

/-- The generator run on `envPage0` / `tmplY` with both defaults. -/
def genPage0 : GenResult where
  yielded := ["http://y/0.jpg"]
  probes := [("http://y/0.jpg", .freshSession), ("http://y/1.jpg", .freshSession)]
  fault := none

/-- An environment answering every HEAD with a 301 redirect. -/
def envRedirect : Net where
  head _ := .status 301
  get _ := .status 301 ""
  decode b := b
  tmpdir := "tmp"

/-- An environment where pages 1..2 of `http://x/5/` exist but the GET of
page 2 answers a 500 server error. -/
def envBrokenGet : Net where
  head u :=
    if u = "http://x/5/1.jpg" ∨ u = "http://x/5/2.jpg"
    then .status 200 else .status 404
  get u := if u = "http://x/5/1.jpg" then .status 200 "one" else .status 500 "err"
  decode b := b
  tmpdir := "tmp"

/-! Helper lemmas. -/

/-- `url_ok` returns the same answer whatever session issues the request
(sessions only affect connection reuse). -/
theorem url_ok_session_irrel (env : Net) (u : URL) (s s' : SessionId) :
    url_ok env u s = url_ok env u s' := rfl

/-- Peeling the first element off a `List.range` map. -/
theorem map_range_succ_left {α : Type} (f : Nat → α) (k : Nat) :
    (List.range (k + 1)).map f = f 0 :: (List.range k).map (fun i => f (i + 1)) := by
  rw [List.range_succ_eq_map, List.map_cons, List.map_map]
  rfl

/-- Running the `page_fetcher` loop when pages `start .. start+k-1` exist and
page `start+k` does not: it yields those `k` URLs, probes `k+1` URLs, and
terminates without a fault. -/
theorem page_fetcherAux_run (env : Net) (t : Template) (s : SessionId) :
    ∀ (k start fuel : Nat), k < fuel →
    (∀ i, i < k → url_ok env (formatPage t (start + i)) s = .ok true) →
    url_ok env (formatPage t (start + k)) s = .ok false →
    page_fetcherAux env t s fuel start =
      some ⟨(List.range k).map (fun i => formatPage t (start + i)),
            (List.range (k + 1)).map (fun i => (formatPage t (start + i), s)),
            none⟩ := by
  intro k
  induction k with
  | zero =>
    intro start fuel hf hk hstop
    obtain ⟨m, rfl⟩ : ∃ m, fuel = m + 1 := ⟨fuel - 1, by omega⟩
    simp only [Nat.add_zero] at hstop
    simp [page_fetcherAux, hstop, List.range_succ]
  | succ k ih =>
    intro start fuel hf hk hstop
    obtain ⟨m, rfl⟩ : ∃ m, fuel = m + 1 := ⟨fuel - 1, by omega⟩
    have h0 : url_ok env (formatPage t start) s = .ok true := by
      simpa using hk 0 (Nat.succ_pos k)
    have hshift : ∀ i, start + 1 + i = start + (i + 1) := fun i => by omega
    have hrec := ih (start + 1) m (by omega)
      (fun i hi => by rw [hshift i]; exact hk (i + 1) (by omega))
      (by rw [hshift k]; exact hstop)
    simp only [page_fetcherAux, h0, hrec]
    rw [map_range_succ_left (fun i => formatPage t (start + i)),
        map_range_succ_left (fun i => (formatPage t (start + i), s))]
    simp [hshift]

/-- C1: for every URL template, start index and stubbed existence predicate
under which pages `start .. start+k-1` exist and page `start+k` does not, the
generator `page_fetcher` yields exactly the `k` URLs obtained by substituting
`start, start+1, ..., start+k-1` into the template's page slot, in strictly
increasing contiguous order, and terminates with no error. -/
theorem page_fetcher_yields_contiguous (env : Net) (t : Template)
    (sess : Option SessionId) (start k fuel : Nat)
    (hexists : ∀ i, i < k →
      url_ok env (formatPage t (start + i)) (sess.getD .freshSession) = .ok true)
    (hstop : url_ok env (formatPage t (start + k)) (sess.getD .freshSession) = .ok false)
    (hfuel : k < fuel) :
    page_fetcher env t start sess fuel =
      some ⟨(List.range k).map (fun i => formatPage t (start + i)),
            (List.range (k + 1)).map
              (fun i => (formatPage t (start + i), sess.getD .freshSession)),
            none⟩ :=
  page_fetcherAux_run env t (sess.getD .freshSession) k start fuel hfuel hexists hstop

/-- C1 witness: on the concrete environment where pages 1..3 of
`http://x/5/` exist, the generator started at 1 yields exactly those three
URLs in order and stops after probing page 4. -/
theorem page_fetcher_yields_contiguous_witness :
    page_fetcher envPages123 tmplX 1 (some .perChapter) 4 =
      some ⟨["http://x/5/1.jpg", "http://x/5/2.jpg", "http://x/5/3.jpg"],
            [("http://x/5/1.jpg", .perChapter), ("http://x/5/2.jpg", .perChapter),
             ("http://x/5/3.jpg", .perChapter), ("http://x/5/4.jpg", .perChapter)],
            none⟩ :=
  (page_fetcher_yields_contiguous envPages123 tmplX (some .perChapter) 1 3 4
    (by decide) (by decide) (by decide)).trans (by decide)

/-- C7 counterexample: `page_fetcher`'s `startfrom` parameter defaults to 0,
not 1 (src/main.py line 57), and on a concrete host where only page 0 exists a
call with all defaults probes and yields page 0 first — it does not probe
page 1 first. -/
theorem page_fetcher_default_start_not_one :
    page_fetcher_default_startfrom ≠ 1 ∧
    page_fetcherDefaults envPage0 tmplY 5 = some genPage0 := by decide

/-- C7 amended: the start index is a configurable offset whose default value
is 0: a call to the generator that does not specify a start index probes
page 0 first (the orchestrator passes `startfrom=1` explicitly instead of
relying on the default). -/
theorem page_fetcher_default_probes_page_zero :
    page_fetcher_default_startfrom = 0 ∧
    ∀ (env : Net) (t : Template) (fuel : Nat) (r : GenResult),
      page_fetcherDefaults env t fuel = some r →
      r.probes.head? = some (formatPage t 0, .freshSession) := by
  refine ⟨rfl, ?_⟩
  intro env t fuel r h
  cases fuel with
  | zero => simp [page_fetcherDefaults, page_fetcher, page_fetcherAux] at h
  | succ m =>
    rw [page_fetcherDefaults, page_fetcher, page_fetcher_default_startfrom] at h
    rcases he : url_ok env (formatPage t 0) (Option.getD none SessionId.freshSession) with f | b
    · simp only [page_fetcherAux, he] at h
      injection h with h
      subst h
      rfl
    · cases b with
      | false =>
        simp only [page_fetcherAux, he] at h
        injection h with h
        subst h
        rfl
      | true =>
        rcases hrec : page_fetcherAux env t (Option.getD none SessionId.freshSession) m (0 + 1) with _ | r'
        · simp only [page_fetcherAux, he, hrec] at h
          cases h
        · simp only [page_fetcherAux, he, hrec] at h
          injection h with h
          subst h
          rfl

/-- C7 amended witness: on the concrete environment where only page 0 of
`http://y/` exists, the default-argument call's first probe is page 0. -/
theorem page_fetcher_default_probes_page_zero_witness :
    genPage0.probes.head? = some (formatPage tmplY 0, .freshSession) :=
  page_fetcher_default_probes_page_zero.2 envPage0 tmplY 5 genPage0 (by decide)

/-- C2 counterexample: on a concrete environment where the existence check of
`http://z/2` raises a connection-timeout fault, `url_ok` does not return
false — the fault propagates — and the generator started at page 1 yields
page 1's URL and then terminates with the propagated fault, not normally. -/
theorem url_ok_fault_not_treated_as_absent :
    url_ok envTimeout2 "http://z/2" .perChapter = .error .timeout ∧
    url_ok envTimeout2 "http://z/2" .perChapter ≠ .ok false ∧
    page_fetcher envTimeout2 tmplZ 1 (some .perChapter) 5 =
      some ⟨["http://z/1"],
            [("http://z/1", .perChapter), ("http://z/2", .perChapter)],
            some .timeout⟩ := by decide

/-- C2 amended: a network-level fault raised during an existence check
propagates out of `url_ok` (there is no exception handling in it); in
particular, if page 1 exists and the check for page 2 raises such a fault,
the generator yields page 1's URL and then propagates the fault instead of
terminating normally. -/
theorem url_ok_fault_propagates (env : Net) (t : Template) (s : SessionId)
    (f : NetFault) (fuel : Nat)
    (h1 : url_ok env (formatPage t 1) s = .ok true)
    (h2 : env.head (formatPage t 2) = .fault f)
    (hfuel : 2 ≤ fuel) :
    url_ok env (formatPage t 2) s = .error f ∧
    page_fetcher env t 1 (some s) fuel =
      some ⟨[formatPage t 1],
            [(formatPage t 1, s), (formatPage t 2, s)], some f⟩ := by
  have hue : url_ok env (formatPage t 2) s = .error f := by
    simp [url_ok, h2]
  refine ⟨hue, ?_⟩
  obtain ⟨m, rfl⟩ : ∃ m, fuel = m + 1 + 1 := ⟨fuel - 2, by omega⟩
  show page_fetcherAux env t s (m + 1 + 1) 1 = _
  simp only [page_fetcherAux, h1, show (1 : Nat) + 1 = 2 from rfl, hue]

/-- C2 amended witness: the concrete timeout scenario, page 2's check raising
a timeout after page 1 succeeded. -/
theorem url_ok_fault_propagates_witness :
    url_ok envTimeout2 (formatPage tmplZ 2) .perChapter = .error .timeout ∧
    page_fetcher envTimeout2 tmplZ 1 (some .perChapter) 5 =
      some ⟨[formatPage tmplZ 1],
            [(formatPage tmplZ 1, .perChapter), (formatPage tmplZ 2, .perChapter)],
            some .timeout⟩ :=
  url_ok_fault_propagates envTimeout2 tmplZ .perChapter .timeout 5
    (by decide) (by decide) (by decide)

/-- C4: when the HEAD request answers with a status code, `url_ok` returns
true iff that status is exactly 200; every other status — unresolved
redirects, client errors, server errors — gives false. -/
theorem url_ok_true_iff_status_200 (env : Net) (u : URL) (s : SessionId)
    (c : Nat) (h : env.head u = .status c) :
    (url_ok env u s = .ok true ↔ c = 200) ∧
    (c ≠ 200 → url_ok env u s = .ok false) := by
  constructor
  · simp [url_ok, h]
  · intro hc
    simp [url_ok, h, hc]

/-- C4 witness: a 301 redirect answer makes `url_ok` return false. -/
theorem url_ok_true_iff_status_200_witness :
    (url_ok envRedirect "http://r/a" .sharedDefault = .ok true ↔ (301 : Nat) = 200) ∧
    ((301 : Nat) ≠ 200 → url_ok envRedirect "http://r/a" .sharedDefault = .ok false) :=
  url_ok_true_iff_status_200 envRedirect "http://r/a" .sharedDefault 301 (by decide)

/-- C3: whenever the existence check for page 1 of the chapter-bound template
returns false, `fetch_book` returns `False` without raising, issues no
download at all (and no further probe), and logs the chapter-not-found
message. -/
theorem fetch_book_aborts_when_first_page_absent (env : Net) (url : URL)
    (gfmt : GetFormat) (destfile : String) (chapter : Int) (fuel : Nat)
    (h : url_ok env (formatPage (bindChapter gfmt url chapter) 1)
          url_ok_default_session = .ok false) :
    fetch_book env url gfmt destfile chapter fuel =
      some ⟨.ok false,
            [(formatPage (bindChapter gfmt url chapter) 1, url_ok_default_session)],
            [], [chapterNotFoundMsg], none⟩ := by
  simp only [fetch_book, h]

/-- C3 witness: a chapter whose page 1 answers 404 makes `fetch_book` return
`False` with zero downloads after logging the not-found message. -/
theorem fetch_book_aborts_when_first_page_absent_witness :
    fetch_book envPage0 "http://y" getFormatX "a.pdf" 7 3 =
      some ⟨.ok false, [("http://y/7/1.jpg", .sharedDefault)], [],
            [chapterNotFoundMsg], none⟩ :=
  (fetch_book_aborts_when_first_page_absent envPage0 "http://y" getFormatX
    "a.pdf" 7 3 (by decide)).trans (by decide)

/-- C6 (evidence of the code slip): in a concrete successful run, the initial
page-1 probe issued by `fetch_book` (src/main.py line 125 calls `url_ok`
without the session argument) uses the shared default session, while every
generator probe and every download uses the per-chapter session — so not
every operation of the run uses the per-chapter session. -/
theorem fetch_book_first_probe_uses_shared_default_session :
    fetch_book envPages123 "http://x" getFormatX "a.pdf" 5 5 =
      some outcomePages123 ∧
    outcomePages123.probes.head? = some ("http://x/5/1.jpg", .sharedDefault) ∧
    outcomePages123.probes.tail.all (fun p => p.2 = .perChapter) = true ∧
    outcomePages123.downloads.all (fun p => p.2 = .perChapter) = true := by
  refine ⟨by decide, rfl, by decide, by decide⟩

/-- Running the download loop of `fetch_book` when pages
`start .. start+k-1` exist and download without error and page `start+k`
does not exist: all `k` pages are decoded in order and the loop ends
normally. -/
theorem fetchLoop_success (env : Net) (t : Template) (tmpdir : String)
    (s : SessionId) :
    ∀ (k : Nat) (body : Nat → String) (code : Nat → Nat) (start fuel : Nat),
    k < fuel →
    (∀ i, i < k → url_ok env (formatPage t (start + i)) s = .ok true) →
    url_ok env (formatPage t (start + k)) s = .ok false →
    (∀ i, i < k → env.get (formatPage t (start + i)) = .status (code i) (body i)) →
    (∀ i, i < k → ¬(400 ≤ code i ∧ code i < 600)) →
    fetchLoop env t tmpdir s fuel start =
      some ⟨(List.range k).map (fun i => env.decode (body i)),
            (List.range (k + 1)).map (fun i => (formatPage t (start + i), s)),
            (List.range k).map (fun i => (formatPage t (start + i), s)),
            (List.range k).map (fun i => "downloading " ++ formatPage t (start + i)),
            none⟩ := by
  intro k
  induction k with
  | zero =>
    intro body code start fuel hf hk hstop hget hcode
    obtain ⟨m, rfl⟩ : ∃ m, fuel = m + 1 := ⟨fuel - 1, by omega⟩
    simp only [Nat.add_zero] at hstop
    simp [fetchLoop, hstop, List.range_succ]
  | succ k ih =>
    intro body code start fuel hf hk hstop hget hcode
    obtain ⟨m, rfl⟩ : ∃ m, fuel = m + 1 := ⟨fuel - 1, by omega⟩
    have h0 : url_ok env (formatPage t start) s = .ok true := by
      simpa using hk 0 (Nat.succ_pos k)
    have hg0 : env.get (formatPage t start) = .status (code 0) (body 0) := by
      simpa using hget 0 (Nat.succ_pos k)
    have hc0 : ¬(400 ≤ code 0 ∧ code 0 < 600) := hcode 0 (Nat.succ_pos k)
    have hdl : download_file env (formatPage t start) tmpdir s =
        .ok (tmpdir ++ "/" ++ fileName (formatPage t start), body 0) := by
      simp [download_file, hg0, hc0]
    have hshift : ∀ i, start + 1 + i = start + (i + 1) := fun i => by omega
    have hrec := ih (fun i => body (i + 1)) (fun i => code (i + 1)) (start + 1) m
      (by omega)
      (fun i hi => by rw [hshift i]; exact hk (i + 1) (by omega))
      (by rw [hshift k]; exact hstop)
      (fun i hi => by rw [hshift i]; exact hget (i + 1) (by omega))
      (fun i hi => hcode (i + 1) (by omega))
    simp only [fetchLoop, h0, hdl, hrec]
    rw [map_range_succ_left (fun i => env.decode (body i)),
        map_range_succ_left (fun i => (formatPage t (start + i), s)) (k + 1),
        map_range_succ_left (fun i => (formatPage t (start + i), s)) k,
        map_range_succ_left (fun i => "downloading " ++ formatPage t (start + i))]
    simp [hshift]

/-- A raised `download_file` exception is a network fault or an `HTTPError`,
never an `IndexError`. -/
theorem download_file_error_cases (env : Net) (u : URL) (d : String)
    (s : SessionId) (e : PyErr)
    (h : download_file env u d s = .error e) :
    e ≠ .indexError := by
  intro hcon
  subst hcon
  rcases hg : env.get u with ⟨c, b⟩ | f
  · simp only [download_file, hg] at h
    split at h <;> simp at h
  · simp only [download_file, hg] at h
    simp at h

/-- The download loop never raises `IndexError`. -/
theorem fetchLoop_err_shape (env : Net) (t : Template) (tmpdir : String)
    (s : SessionId) :
    ∀ (fuel start : Nat) (r : LoopResult),
      fetchLoop env t tmpdir s fuel start = some r →
      r.err ≠ some .indexError := by
  intro fuel
  induction fuel with
  | zero => intro start r h; simp [fetchLoop] at h
  | succ m ih =>
    intro start r h
    rcases he : url_ok env (formatPage t start) s with f | b
    · simp only [fetchLoop, he] at h
      injection h with h
      subst h
      simp
    · cases b with
      | false =>
        simp only [fetchLoop, he] at h
        injection h with h
        subst h
        simp
      | true =>
        rcases hd : download_file env (formatPage t start) tmpdir s with e | pr
        · simp only [fetchLoop, he, hd] at h
          injection h with h
          subst h
          intro hcon
          injection hcon with hcon
          exact download_file_error_cases env (formatPage t start) tmpdir s e hd hcon
        · obtain ⟨fname, bdy⟩ := pr
          rcases hrec : fetchLoop env t tmpdir s m (start + 1) with _ | r'
          · simp only [fetchLoop, he, hd, hrec] at h
            cases h
          · simp only [fetchLoop, he, hd, hrec] at h
            injection h with h
            subst h
            exact ih (start + 1) r' hrec

/-- If the first probed page exists and the download loop ended normally, at
least one image was collected. -/
theorem fetchLoop_first_ok_images_ne_nil (env : Net) (t : Template)
    (tmpdir : String) (s : SessionId) (fuel start : Nat) (r : LoopResult)
    (h : fetchLoop env t tmpdir s fuel start = some r)
    (hok : url_ok env (formatPage t start) s = .ok true)
    (herr : r.err = none) :
    r.images ≠ [] := by
  cases fuel with
  | zero => simp [fetchLoop] at h
  | succ m =>
    rcases hd : download_file env (formatPage t start) tmpdir s with e | pr
    · simp only [fetchLoop, hok, hd] at h
      injection h with h
      subst h
      simp at herr
    · obtain ⟨fname, bdy⟩ := pr
      rcases hrec : fetchLoop env t tmpdir s m (start + 1) with _ | r'
      · simp only [fetchLoop, hok, hd, hrec] at h
        cases h
      · simp only [fetchLoop, hok, hd, hrec] at h
        injection h with h
        subst h
        simp

/-- Running the download loop when pages `start .. start+j` exist, the first
`j` downloads succeed and the download of page `start+j` answers a 4xx/5xx
status: the loop aborts with the propagated `HTTPError`. -/
theorem fetchLoop_download_failure (env : Net) (t : Template) (tmpdir : String)
    (s : SessionId) :
    ∀ (j : Nat) (body : Nat → String) (code : Nat → Nat) (start fuel c : Nat)
      (bj : String), j < fuel →
    (∀ i, i ≤ j → url_ok env (formatPage t (start + i)) s = .ok true) →
    (∀ i, i < j → env.get (formatPage t (start + i)) = .status (code i) (body i)) →
    (∀ i, i < j → ¬(400 ≤ code i ∧ code i < 600)) →
    env.get (formatPage t (start + j)) = .status c bj →
    400 ≤ c → c < 600 →
    ∃ r, fetchLoop env t tmpdir s fuel start = some r ∧
      r.err = some (.httpError c) := by
  intro j
  induction j with
  | zero =>
    intro body code start fuel c bj hf hok hget hcode hgetj hc1 hc2
    obtain ⟨m, rfl⟩ : ∃ m, fuel = m + 1 := ⟨fuel - 1, by omega⟩
    have h0 : url_ok env (formatPage t start) s = .ok true := by
      simpa using hok 0 (Nat.le_refl 0)
    have hg : env.get (formatPage t start) = .status c bj := by
      simpa using hgetj
    have hdl : download_file env (formatPage t start) tmpdir s =
        .error (.httpError c) := by
      simp [download_file, hg, hc1, hc2]
    refine ⟨⟨[], [(formatPage t start, s)], [(formatPage t start, s)],
             ["downloading " ++ formatPage t start], some (.httpError c)⟩, ?_, rfl⟩
    simp [fetchLoop, h0, hdl]
  | succ j ih =>
    intro body code start fuel c bj hf hok hget hcode hgetj hc1 hc2
    obtain ⟨m, rfl⟩ : ∃ m, fuel = m + 1 := ⟨fuel - 1, by omega⟩
    have h0 : url_ok env (formatPage t start) s = .ok true := by
      simpa using hok 0 (Nat.zero_le (j + 1))
    have hg0 : env.get (formatPage t start) = .status (code 0) (body 0) := by
      simpa using hget 0 (Nat.succ_pos j)
    have hc0 : ¬(400 ≤ code 0 ∧ code 0 < 600) := hcode 0 (Nat.succ_pos j)
    have hdl : download_file env (formatPage t start) tmpdir s =
        .ok (tmpdir ++ "/" ++ fileName (formatPage t start), body 0) := by
      simp [download_file, hg0, hc0]
    have hshift : ∀ i, start + 1 + i = start + (i + 1) := fun i => by omega
    obtain ⟨r', hr', herr'⟩ := ih (fun i => body (i + 1)) (fun i => code (i + 1))
      (start + 1) m c bj (by omega)
      (fun i hi => by rw [hshift i]; exact hok (i + 1) (by omega))
      (fun i hi => by rw [hshift i]; exact hget (i + 1) (by omega))
      (fun i hi => hcode (i + 1) (by omega))
      (by rw [hshift j]; exact hgetj) hc1 hc2
    refine ⟨⟨env.decode (body 0) :: r'.images,
             (formatPage t start, s) :: r'.probes,
             (formatPage t start, s) :: r'.downloads,
             ("downloading " ++ formatPage t start) :: r'.logs, r'.err⟩,
            ?_, herr'⟩
    simp [fetchLoop, h0, hdl, hr']

/-- C5: for every run in which pages `1..k` exist (`k ≥ 1`), download without
error, and page `k+1` does not exist, `fetch_book` completes with `True` and
assembles at the configured destination exactly the `k` decoded page images,
in increasing page order (`body i` is the byte content of page `1+i`). -/
theorem fetch_book_assembles_all_pages (env : Net) (url : URL)
    (gfmt : GetFormat) (destfile : String) (chapter : Int) (k fuel : Nat)
    (body : Nat → String) (code : Nat → Nat)
    (hk : 1 ≤ k) (hf : k < fuel)
    (hexist : ∀ i, i < k →
      env.head (formatPage (bindChapter gfmt url chapter) (1 + i)) = .status 200)
    (hstop : url_ok env (formatPage (bindChapter gfmt url chapter) (1 + k))
      .perChapter = .ok false)
    (hget : ∀ i, i < k →
      env.get (formatPage (bindChapter gfmt url chapter) (1 + i)) =
        .status (code i) (body i))
    (hcode : ∀ i, i < k → ¬(400 ≤ code i ∧ code i < 600)) :
    (fetch_book env url gfmt destfile chapter fuel).map runSummary =
      some (.ok true,
        some (destfile, (List.range k).map (fun i => env.decode (body i)))) := by
  have hok : ∀ i, i < k →
      url_ok env (formatPage (bindChapter gfmt url chapter) (1 + i)) .perChapter =
        .ok true := fun i hi => by simp [url_ok, hexist i hi]
  have h1 : url_ok env (formatPage (bindChapter gfmt url chapter) 1)
      url_ok_default_session = .ok true := hok 0 (by omega)
  have hloop := fetchLoop_success env (bindChapter gfmt url chapter) env.tmpdir
    .perChapter k body code 1 fuel hf hok hstop hget hcode
  obtain ⟨k', rfl⟩ : ∃ k', k = k' + 1 := ⟨k - 1, by omega⟩
  rw [map_range_succ_left (fun i => env.decode (body i))] at hloop
  simp only [fetch_book, h1, hloop]
  simp [runSummary, map_range_succ_left (fun i => env.decode (body i))]

/-- C5 witness: chapter 5 of `http://x` with pages 1..3 present and page 4
absent yields an artifact of exactly three images in page order. -/
theorem fetch_book_assembles_all_pages_witness :
    (fetch_book envPages123 "http://x" getFormatX "a.pdf" 5 5).map runSummary =
      some (.ok true, some ("a.pdf",
        ["img:bytes:http://x/5/1.jpg", "img:bytes:http://x/5/2.jpg",
         "img:bytes:http://x/5/3.jpg"])) :=
  (fetch_book_assembles_all_pages envPages123 "http://x" getFormatX "a.pdf" 5 3 5
    (fun i => "bytes:http://x/5/" ++ toString (1 + i) ++ ".jpg") (fun _ => 200)
    (by decide) (by decide) (by decide) (by decide) (by decide)
    (by decide)).trans (by decide)

/-- C8: once the generator has confirmed that page `1+j` exists, a 4xx/5xx
status on its download is fatal: `raise_for_status()` raises an `HTTPError`
that propagates out of `fetch_book`, aborting the whole chapter run with no
assembled output (in contrast to the prober's treat-as-absent semantics). -/
theorem download_failure_aborts_run (env : Net) (url : URL) (gfmt : GetFormat)
    (destfile : String) (chapter : Int) (j fuel c : Nat) (bj : String)
    (body : Nat → String) (code : Nat → Nat)
    (hf : j < fuel)
    (hok : ∀ i, i ≤ j →
      env.head (formatPage (bindChapter gfmt url chapter) (1 + i)) = .status 200)
    (hget : ∀ i, i < j →
      env.get (formatPage (bindChapter gfmt url chapter) (1 + i)) =
        .status (code i) (body i))
    (hcode : ∀ i, i < j → ¬(400 ≤ code i ∧ code i < 600))
    (hgetj : env.get (formatPage (bindChapter gfmt url chapter) (1 + j)) =
      .status c bj)
    (hc1 : 400 ≤ c) (hc2 : c < 600) :
    (fetch_book env url gfmt destfile chapter fuel).map runSummary =
      some (.error (.httpError c), none) := by
  have hok' : ∀ i, i ≤ j →
      url_ok env (formatPage (bindChapter gfmt url chapter) (1 + i)) .perChapter =
        .ok true := fun i hi => by simp [url_ok, hok i hi]
  have h1 : url_ok env (formatPage (bindChapter gfmt url chapter) 1)
      url_ok_default_session = .ok true := hok' 0 (Nat.zero_le j)
  obtain ⟨r, hloop, herr⟩ := fetchLoop_download_failure env
    (bindChapter gfmt url chapter) env.tmpdir .perChapter j body code 1 fuel c bj
    hf hok' hget hcode hgetj hc1 hc2
  simp [fetch_book, h1, hloop, herr, runSummary]

/-- C8 witness: pages 1 and 2 exist, page 1 downloads fine but the download
of page 2 answers 500 — `fetch_book` aborts with the `HTTPError` and saves
nothing. -/
theorem download_failure_aborts_run_witness :
    (fetch_book envBrokenGet "http://x" getFormatX "a.pdf" 5 3).map runSummary =
      some (.error (.httpError 500), none) :=
  download_failure_aborts_run envBrokenGet "http://x" getFormatX "a.pdf" 5 1 3
    500 "err" (fun _ => "one") (fun _ => 200) (by decide) (by decide) (by decide)
    (by decide) (by decide) (by decide) (by decide)

/-- C9: page existence is a fixed function of the URL (built into `Net`), so
when the initial page-1 probe of `fetch_book` succeeds, the generator yields
at least one URL, the collected image list is non-empty, and the unguarded
`images[0]` access during assembly cannot fail: no completed run results in
an `IndexError`. -/
theorem first_page_ok_no_index_error (env : Net) (url : URL) (gfmt : GetFormat)
    (destfile : String) (chapter : Int) (fuel : Nat) (o : FetchOutcome)
    (hrun : fetch_book env url gfmt destfile chapter fuel = some o)
    (h1 : url_ok env (formatPage (bindChapter gfmt url chapter) 1)
      url_ok_default_session = .ok true) :
    o.result ≠ .error .indexError := by
  rcases hl : fetchLoop env (bindChapter gfmt url chapter) env.tmpdir
      .perChapter fuel 1 with _ | r
  · simp only [fetch_book, h1, hl] at hrun
    cases hrun
  · simp only [fetch_book, h1, hl] at hrun
    rcases herr : r.err with _ | e
    · rcases him : r.images with _ | ⟨img, rest⟩
      · have hne := fetchLoop_first_ok_images_ne_nil env
          (bindChapter gfmt url chapter) env.tmpdir .perChapter fuel 1 r hl h1 herr
        exact absurd him hne
      · simp only [herr, him] at hrun
        injection hrun with hrun
        subst hrun
        simp
    · simp only [herr] at hrun
      injection hrun with hrun
      subst hrun
      have hshape := fetchLoop_err_shape env (bindChapter gfmt url chapter)
        env.tmpdir .perChapter fuel 1 r hl
      rw [herr] at hshape
      intro hcon
      injection hcon with hcon
      exact hshape (by rw [hcon])

/-- C9 witness: the successful three-page run of `envPages123` does not end
in an `IndexError`. -/
theorem first_page_ok_no_index_error_witness :
    outcomePages123.result ≠ .error .indexError :=
  first_page_ok_no_index_error envPages123 "http://x" getFormatX "a.pdf" 5 5
    outcomePages123 (by decide) (by decide)

/-- C10: a completed `fetch_book` run returns `False` exactly when the
initial page-1 existence check returned false; every run that passes that
check either raises or returns `True` — no other path returns `False`. -/
theorem fetch_book_false_iff_first_probe_false (env : Net) (url : URL)
    (gfmt : GetFormat) (destfile : String) (chapter : Int) (fuel : Nat)
    (o : FetchOutcome)
    (hrun : fetch_book env url gfmt destfile chapter fuel = some o) :
    o.result = .ok false ↔
      url_ok env (formatPage (bindChapter gfmt url chapter) 1)
        url_ok_default_session = .ok false := by
  rcases hu : url_ok env (formatPage (bindChapter gfmt url chapter) 1)
      url_ok_default_session with f | b
  · simp only [fetch_book, hu] at hrun
    injection hrun with hrun
    subst hrun
    simp [hu]
  · cases b with
    | false =>
      simp only [fetch_book, hu] at hrun
      injection hrun with hrun
      subst hrun
      simp [hu]
    | true =>
      rcases hl : fetchLoop env (bindChapter gfmt url chapter) env.tmpdir
          .perChapter fuel 1 with _ | r
      · simp only [fetch_book, hu, hl] at hrun
        cases hrun
      · simp only [fetch_book, hu, hl] at hrun
        rcases herr : r.err with _ | e
        · rcases him : r.images with _ | ⟨img, rest⟩
          · simp only [herr, him] at hrun
            injection hrun with hrun
            subst hrun
            simp [hu]
          · simp only [herr, him] at hrun
            injection hrun with hrun
            subst hrun
            simp [hu]
        · simp only [herr] at hrun
          injection hrun with hrun
          subst hrun
          simp [hu]

/-- C10 witness: on the successful three-page run, the returned value is not
`False`, matching its passing page-1 check. -/
theorem fetch_book_false_iff_first_probe_false_witness :
    outcomePages123.result = .ok false ↔
      url_ok envPages123 (formatPage (bindChapter getFormatX "http://x" 5) 1)
        url_ok_default_session = .ok false :=
  fetch_book_false_iff_first_probe_false envPages123 "http://x" getFormatX
    "a.pdf" 5 5 outcomePages123 (by decide)

end MangaFetcher
